import Mathlib

/-!
Verification of the session-synchronization and zero-knowledge persistence
core of the FamilyFoodNight repository.

The development shallowly embeds the relevant source modules:

* `src/services/crypto.ts` — password-based encryption of session documents.
  The Web Crypto primitives (PBKDF2 key derivation, AES-GCM) are platform
  code, not repository code; they are modelled symbolically as an ideal
  AEAD: key derivation is a deterministic pairing of password and salt, and
  authenticated decryption returns the payload exactly when the derived key
  and IV match the ones used at encryption time.  `JSON.stringify` /
  `JSON.parse` round-tripping of a serializable object is likewise modelled
  by carrying the structured session value through the cipher.
* `src/services/storage.ts` and its variant `src/unnamed/part_005` —
  the session manager (load / save / join / export / import).  Browser
  `localStorage` is modelled as a typed record of the three key classes the
  code uses (per-family encrypted blobs, the last-used-credentials pointer,
  the configured server URL); `Date.now()` and the random salt / IV draws
  are passed in as explicit parameters.
* `src/server/server.js` — the relay: the invite endpoints, the family
  upsert endpoint, and the WebSocket fan-out `broadcastUpdate`.

Messages a client sends over the wire, and notifications posted on the
same-device broadcast channel, are reified as inductive values so that
statements about what does or does not travel in plaintext are expressible.
-/

namespace FamEats

/-- Modelled from the spec: the repository's `types.ts` is not among the
source files (only importers are).  Spec §3 describes `Restaurant` as a
place or cuisine suggestion carrying provenance and optional
rating/address/external-map-link metadata. -/
structure Restaurant where
  name : String
  source : String
  rating : Option Nat
  address : Option String
  mapsUri : Option String
deriving DecidableEq

/-- One participant's profile.  Field set reconstructed from the member
literals in `storage.ts` (`createNewFamily`, `joinFamily`). -/
structure FamilyMember where
  id : String
  name : String
  avatarColor : String
  dietaryRestrictions : List String
  cuisinePreferences : List String
  flavorPreferences : List String
  preferences : List String
  favorites : List Restaurant
  isCurrentUser : Bool
deriving DecidableEq

/-- The root shared document, per the session literal in
`storage.ts` (`createNewFamily`).  `lastUpdated` is wall-clock
milliseconds, modelled as `Nat`. -/
structure FamilySession where
  familyId : String
  familyName : String
  familyKey : String
  members : List FamilyMember
  lastUpdated : Nat
deriving DecidableEq

/-! ## Crypto module (`src/services/crypto.ts`)

`getKeyMaterial` / `getKey` derive an AES key from the password and a salt
via PBKDF2 (100000 iterations of SHA-256).  Derivation is deterministic in
`(password, salt)`; we model the derived key as that pair itself, which is
the ideal (collision-free) model of the derivation. -/

/-- A symbolic PBKDF2-derived AES-GCM key: deterministic in the password
and the salt (`getKey` in `crypto.ts`). -/
structure DerivedKey where
  password : String
  salt : List Nat
deriving DecidableEq

/-- Key derivation, modelling `getKeyMaterial` composed with `getKey`. -/
def getKey (password : String) (salt : List Nat) : DerivedKey :=
  { password := password, salt := salt }

/-- A symbolic AES-GCM ciphertext.  An ideal AEAD ciphertext is a function
of the key, the IV and the plaintext, and authenticated decryption recovers
the plaintext exactly when key and IV match; we represent it by that
triple.  The payload carries the structured session, modelling the
`JSON.stringify` at line 81 of `crypto.ts` together with the inverse
`JSON.parse` at line 119 (the identity on JSON-serializable objects). -/
structure Ciphertext where
  key : DerivedKey
  iv : List Nat
  payload : FamilySession
deriving DecidableEq

/-- Ideal-AEAD encryption: `window.crypto.subtle.encrypt` with AES-GCM. -/
def aesGcmEncrypt (key : DerivedKey) (iv : List Nat) (payload : FamilySession) : Ciphertext :=
  { key := key, iv := iv, payload := payload }

/-- Ideal-AEAD decryption: `window.crypto.subtle.decrypt` with AES-GCM
succeeds and returns the payload precisely when the supplied key and IV are
the ones used at encryption time; otherwise authentication fails. -/
def aesGcmDecrypt (key : DerivedKey) (iv : List Nat) (ct : Ciphertext) : Option FamilySession :=
  if ct.key = key ∧ ct.iv = iv then some ct.payload else none

/-- The self-describing envelope produced by `encryptData`
(`crypto.ts` lines 89–95): a JSON object bundling base64 renderings of the
salt, the IV and the ciphertext.  The JSON/base64 packaging is injective
and is modelled by the record itself. -/
structure Envelope where
  salt : List Nat
  iv : List Nat
  data : Ciphertext
deriving DecidableEq

/-- Error message thrown by `decryptData` (`crypto.ts` line 122). -/
def decryptFailedMessage : String := "Invalid Family Code or Corrupted Data"

/-- Embedding of `encryptData` (`crypto.ts` lines 73–100).  The fresh
random salt and IV drawn from `crypto.getRandomValues` are explicit
parameters. -/
def encryptData (data : FamilySession) (password : String)
    (salt iv : List Nat) : Envelope :=
  { salt := salt
    iv := iv
    data := aesGcmEncrypt (getKey password salt) iv data }

/-- Embedding of `decryptData` (`crypto.ts` lines 102–124): re-derives the
key from the password and the envelope's salt, attempts authenticated
decryption, and converts any failure into the single error message. -/
def decryptData (encryptedPackage : Envelope) (password : String) :
    Except String FamilySession :=
  match aesGcmDecrypt (getKey password encryptedPackage.salt)
      encryptedPackage.iv encryptedPackage.data with
  | some v => Except.ok v
  | none => Except.error decryptFailedMessage

/-- The restricted alphabet of `generateFamilyCode`
(`crypto.ts` line 65).  Note that it does contain `L`. -/
def familyCodeAlphabet : String := "ABCDEFGHJKLMNPQRSTUVWXYZ23456789"

/-- Embedding of `generateFamilyCode` (`crypto.ts` lines 63–71): six
characters, each picked from the 32-symbol alphabet at an index
`Math.floor(Math.random() * 32)`; the six random draws are the explicit
parameter `rand`. -/
def generateFamilyCode (rand : Fin 6 → Fin 32) : String :=
  String.mk (List.ofFn fun i : Fin 6 => familyCodeAlphabet.toList.getD (rand i).val 'A')

/-! ## Local persistence adapter and messages

Browser `localStorage` is a string key/value store; `storage.ts` uses
exactly three key classes: `fameats_encrypted_<familyId>` for the encrypted
blob, `fameats_last_session` for the last-used credentials, and
`fameats_server_url` for the configured relay endpoint.  `LocalStore`
models the store as that typed record; the per-family entries form an
association list keyed by `familyId`. -/

/-- Lookup in an association list with string keys, modelling
`localStorage.getItem`. -/
def getItem {α : Type} (m : List (String × α)) (k : String) : Option α :=
  match m with
  | [] => none
  | (k', v) :: rest => if k' = k then some v else getItem rest k

/-- Upsert into an association list, modelling `localStorage.setItem`. -/
def setItem {α : Type} (m : List (String × α)) (k : String) (v : α) :
    List (String × α) :=
  (k, v) :: m.filter (fun p => p.1 ≠ k)

/-- The last-used-credentials pointer stored under `fameats_last_session`
(`part_005` lines 76–80). -/
structure LastCreds where
  id : String
  key : String
  name : String
deriving DecidableEq

/-- The device's `localStorage`, restricted to the keys the storage module
touches. -/
structure LocalStore where
  blobs : List (String × Envelope)
  lastSession : Option LastCreds
  serverUrl : Option String
deriving DecidableEq

/-- A `BroadcastChannel` / WebSocket change notification: the JSON object
`\x7b type: 'UPDATE', familyId \x7d` is its only shape. -/
inductive NotifyMsg where
  | update (familyId : String)
deriving DecidableEq

/-- A message a client sends to the relay over the network, reified so
that plaintext content is inspectable.  `postFamily` is the body of
`POST /api/family` (`familyId` plus the encrypted envelope);
`postInvite` is the body of `POST /api/invite` (`familyId` and
`familyKey`, both plain strings). -/
inductive WireMsg where
  | postFamily (familyId : String) (data : Envelope)
  | postInvite (familyId : String) (familyKey : String)
deriving DecidableEq

/-- The strings a wire message transmits in plaintext.  The envelope in
`postFamily` carries only the salt, the IV and the AEAD ciphertext, none
of which is a plaintext string field. -/
def WireMsg.plainStrings : WireMsg → List String
  | .postFamily familyId _ => [familyId]
  | .postInvite familyId familyKey => [familyId, familyKey]

/-- Does the wire message carry the given secret as one of its plaintext
string fields? -/
def containsPlainKey (key : String) (m : WireMsg) : Bool :=
  m.plainStrings.contains key

/-! ## Relay server (`src/server/server.js`) -/

/-- A connected WebSocket as the relay sees it: an identity and its
`readyState` (`isOpen` models `readyState === WebSocket.OPEN`). -/
structure Socket where
  sid : Nat
  isOpen : Bool
deriving DecidableEq

/-- A row of the `invites` table (`server.js` lines 32–37). -/
structure Invite where
  code : String
  familyId : String
  familyKey : String
  createdAt : Nat
deriving DecidableEq

/-- The relay's state: the `families` table (id → encrypted blob), the
`invites` table, and the per-family sets of joined sockets built by the
`JOIN` handler (`server.js` lines 51–77). -/
structure ServerState where
  families : List (String × Envelope × Nat)
  invites : List Invite
  clients : List (String × List Socket)
deriving DecidableEq

/-- HTTP responses of the modelled endpoints. -/
inductive ApiResp where
  | ok
  | code (c : String)
  | badRequest
  | serverError
deriving DecidableEq

/-- Embedding of `broadcastUpdate` (`server.js` lines 79–88): the list of
(socket, message) sends — the `\x7b type: 'UPDATE', familyId \x7d` message
goes to every socket in the family's client set whose `readyState` is
`OPEN`.  There is no notion of a sender and no socket is excluded. -/
def broadcastUpdate (sv : ServerState) (familyId : String) :
    List (Socket × NotifyMsg) :=
  match getItem sv.clients familyId with
  | none => []
  | some socks =>
      (socks.filter (fun s => s.isOpen)).map (fun s => (s, NotifyMsg.update familyId))

/-- Embedding of the `POST /api/family` handler (`server.js` lines
163–169): validate presence of both fields, upsert the blob, broadcast the
update, respond success.  Returns the new state, the WebSocket sends, and
the HTTP response.  A missing `data` field is `none`; a falsy (empty)
`familyId` is rejected like a missing one. -/
def postFamilyHandler (sv : ServerState) (familyId : String)
    (data : Option Envelope) (now : Nat) :
    ServerState × List (Socket × NotifyMsg) × ApiResp :=
  match data with
  | none => (sv, [], ApiResp.badRequest)
  | some d =>
      if familyId = "" then (sv, [], ApiResp.badRequest)
      else
        ({ sv with families := setItem sv.families familyId (d, now) },
         broadcastUpdate sv familyId,
         ApiResp.ok)

/-- The `SELECT code FROM invites WHERE familyId = ?` lookup
(`server.js` line 100). -/
def findInviteByFamily (invites : List Invite) (familyId : String) :
    Option Invite :=
  invites.find? (fun i => i.familyId == familyId)

/-- The `SELECT familyId, familyKey FROM invites WHERE code = ?` lookup
(`server.js` line 115). -/
def findInviteByCode (invites : List Invite) (code : String) :
    Option Invite :=
  invites.find? (fun i => i.code == code)

/-- Embedding of the `POST /api/invite` handler (`server.js` lines
95–111): reject missing credentials, reuse an existing invite for the
family, otherwise insert a row storing the familyId and the familyKey
verbatim and return the fresh code (the random 6-digit code is the
explicit parameter `newCode`; a primary-key collision is the 500 path). -/
def postInviteHandler (sv : ServerState) (familyId familyKey newCode : String)
    (now : Nat) : ServerState × ApiResp :=
  if familyId = "" ∨ familyKey = "" then (sv, ApiResp.badRequest)
  else
    match findInviteByFamily sv.invites familyId with
    | some existing => (sv, ApiResp.code existing.code)
    | none =>
        match findInviteByCode sv.invites newCode with
        | some _ => (sv, ApiResp.serverError)
        | none =>
            ({ sv with invites :=
                { code := newCode, familyId := familyId, familyKey := familyKey,
                  createdAt := now } :: sv.invites },
             ApiResp.code newCode)

/-- Modelled from the spec: `getInviteCode` is imported from
`services/storage` by `FamilyManager.handleInviteCode` (line 108) but its
definition is not among the source files.  Spec §4.3 and the §6 interface
table specify that invite issuance performs `POST /api/invite` with
request body `\x7b familyId, familyKey \x7d`.  This is the wire message
that call emits. -/
def getInviteCodeMsgs (familyId familyKey : String) : List WireMsg :=
  [WireMsg.postInvite familyId familyKey]

/-- Embedding of the `GET /api/family/:id` handler (`server.js` lines
157–161): the stored `data` column for the id, or 404 (`none`). -/
def getFamilyHandler (sv : ServerState) (familyId : String) : Option Envelope :=
  (getItem sv.families familyId).map (fun p => p.1)

/-! ## Session manager (`src/services/storage.ts`, variant
`src/unnamed/part_005`)

Every operation that performs I/O takes the ambient inputs explicitly:
the device's `LocalStore`, the relay's `ServerState`, a flag `netOk`
(whether the network request reaches the relay — a failed `fetch` is
caught and falls back), the clock value `now` for `Date.now()`, and the
salt / IV randomness consumed by `encryptData`. -/

/-- Error message thrown by `joinFamily` (`storage.ts` line 131). -/
def familyNotFoundMessage : String :=
  "Family not found. Check ID/Code or ensure Server URL is set if using cloud sync."

/-- Error message thrown by `importSessionString` (`storage.ts` line 202). -/
def importFailedMessage : String := "Failed to import session. Invalid code."

/-- The blob-acquisition phase of `getStoredSession` (`storage.ts` lines
31–51): when a server URL is configured and the fetch succeeds, use the
relay's copy; otherwise (no URL, network failure, or 404) fall back to the
local cache. -/
def fetchEncrypted (st : LocalStore) (remote : ServerState) (netOk : Bool)
    (familyId : String) : Option Envelope :=
  let fromServer : Option Envelope :=
    match st.serverUrl with
    | some _ => if netOk then getFamilyHandler remote familyId else none
    | none => none
  match fromServer with
  | some d => some d
  | none => getItem st.blobs familyId

/-- Embedding of `getStoredSession` (`storage.ts` lines 30–61): acquire a
blob (remote first, local fallback), then decrypt; a decryption failure is
caught and yields `none`, indistinguishable from an absent blob. -/
def getStoredSession (st : LocalStore) (remote : ServerState) (netOk : Bool)
    (familyId key : String) : Option FamilySession :=
  match fetchEncrypted st remote netOk familyId with
  | none => none
  | some env =>
      match decryptData env key with
      | Except.ok s => some s
      | Except.error _ => none

/-- The outcome of a `saveSession` call: the device's updated store, the
same-device broadcast-channel posts, the wire messages sent to the relay,
whether the remote push was acknowledged, and the returned session. -/
structure SaveResult where
  store : LocalStore
  localMsgs : List NotifyMsg
  wireMsgs : List WireMsg
  remoteAck : Bool
  session : FamilySession
deriving DecidableEq

/-- Embedding of `saveSession` (`part_005` lines 63–101; the
`services/storage.ts` variant at lines 63–94 is identical except that it
omits step 2, the last-used-credentials write).  Stamps `lastUpdated`,
encrypts the stamped document under `session.familyKey`, always writes the
blob and the credentials pointer locally and posts the same-device
`UPDATE`, then — only when a server URL is configured — attempts the
remote push, whose failure (`netOk = false`) is caught and swallowed. -/
def saveSession (st : LocalStore) (now : Nat) (salt iv : List Nat)
    (netOk : Bool) (session : FamilySession) : SaveResult :=
  let serverUrl := st.serverUrl
  let updatedSession := { session with lastUpdated := now }
  let encrypted := encryptData updatedSession session.familyKey salt iv
  let foundName :=
    match session.members.find? (fun m => m.isCurrentUser) with
    | some m => m.name
    | none => ""
  let credName := if foundName = "" then "User" else foundName
  let store1 : LocalStore :=
    { st with
      blobs := setItem st.blobs session.familyId encrypted
      lastSession := some
        { id := session.familyId, key := session.familyKey, name := credName } }
  let wire : List WireMsg :=
    match serverUrl with
    | some _ => [WireMsg.postFamily session.familyId encrypted]
    | none => []
  { store := store1
    localMsgs := [NotifyMsg.update session.familyId]
    wireMsgs := wire
    remoteAck := serverUrl.isSome && netOk
    session := updatedSession }

/-- The fresh member object appended by `joinFamily` when no existing
member matches (`storage.ts` lines 143–153). -/
def newJoinedMember (now : Nat) (userName : String) : FamilyMember :=
  { id := "user-" ++ toString now
    name := userName
    avatarColor := "bg-blue-100 text-blue-600"
    dietaryRestrictions := []
    cuisinePreferences := []
    flavorPreferences := []
    preferences := []
    favorites := []
    isCurrentUser := true }

/-- Embedding of `String.prototype.toLowerCase` as used for the
case-insensitive member match (`storage.ts` line 135), modelled as
per-character lowercasing. -/
def jsToLower (s : String) : String :=
  String.mk (s.toList.map Char.toLower)

/-- The flag re-pointing performed by `joinFamily` when an existing member
matches (`storage.ts` lines 138–140): the member with the matched id gets
`isCurrentUser := true` and every other member gets
`isCurrentUser := false`. -/
def flagCurrentUser (members : List FamilyMember) (targetId : String) :
    List FamilyMember :=
  members.map (fun m =>
    if m.id == targetId then { m with isCurrentUser := true }
    else { m with isCurrentUser := false })

/-- Embedding of `joinFamily` (`storage.ts` lines 126–159; identical in
`part_005` lines 133–166): load the stored session, failing with the one
"not found" error when nothing loads; case-insensitively look for the
user; either re-point the `isCurrentUser` flag (found) or append a fresh
member (not found); then save. -/
def joinFamily (st : LocalStore) (remote : ServerState) (netOk : Bool)
    (now : Nat) (salt iv : List Nat)
    (familyId familyKey userName : String) : Except String SaveResult :=
  match getStoredSession st remote netOk familyId familyKey with
  | none => Except.error familyNotFoundMessage
  | some session =>
      let members1 :=
        match session.members.find?
            (fun m => jsToLower m.name == jsToLower userName) with
        | some existingUser => flagCurrentUser session.members existingUser.id
        | none => session.members ++ [newJoinedMember now userName]
      let session1 := { session with members := members1 }
      Except.ok (saveSession st now salt iv netOk session1)

/-- One trailing-slash strip, modelling `url.replace(/\/$/, "")`
(`storage.ts` line 17). -/
def stripTrailingSlash (url : String) : String :=
  if url.toList.getLast? = some '/' then String.mk url.toList.dropLast else url

/-- Embedding of `setServerUrl` (`storage.ts` lines 14–22): a truthy URL
is stored after stripping one trailing slash; a null or empty URL removes
the key. -/
def setServerUrl (st : LocalStore) (url : Option String) : LocalStore :=
  match url with
  | some u =>
      if u = "" then { st with serverUrl := none }
      else { st with serverUrl := some (stripTrailingSlash u) }
  | none => { st with serverUrl := none }

/-- The portable token built by `exportSessionString` (`storage.ts` lines
163–169): `btoa` of the pipe-delimited bundle
`familyId|familyKey|envelope|serverUrl`.  The base64-of-delimited-string
packaging is injective because the generated ids, codes and the
JSON/base64 envelope rendering never contain a pipe; it is modelled by the
record, with an empty `serverUrl` standing for "no endpoint embedded". -/
structure ExportToken where
  familyId : String
  familyKey : String
  blob : Envelope
  serverUrl : String
deriving DecidableEq

/-- Embedding of `exportSessionString` (`storage.ts` lines 163–169):
encrypts the session as-is under its own key and bundles the credentials,
the envelope and the currently configured server URL (empty when none). -/
def exportSessionString (st : LocalStore) (salt iv : List Nat)
    (session : FamilySession) : ExportToken :=
  { familyId := session.familyId
    familyKey := session.familyKey
    blob := encryptData session session.familyKey salt iv
    serverUrl := st.serverUrl.getD "" }

/-- The outcome of a successful `importSessionString`: the device's
updated store, whether a follow-up save was scheduled (the `setTimeout`
at `storage.ts` line 197), and the imported session. -/
structure ImportResult where
  store : LocalStore
  scheduledSave : Bool
  session : FamilySession
deriving DecidableEq

/-- Embedding of `importSessionString` (`storage.ts` lines 171–204):
splits the token, rejects falsy id/key/blob, adopts a non-empty embedded
server URL, verifies decryption with the embedded key, writes the blob to
the local cache, and schedules a follow-up save exactly when a URL was
embedded.  Every failure inside the `try` is converted to the single
error message for imports. -/
def importSessionString (st : LocalStore) (tok : ExportToken) :
    Except String ImportResult :=
  let serverUrlOpt : Option String :=
    if tok.serverUrl = "" then none else some tok.serverUrl
  if tok.familyId = "" ∨ tok.familyKey = "" then Except.error importFailedMessage
  else
    let st1 :=
      match serverUrlOpt with
      | some u => setServerUrl st (some u)
      | none => st
    match decryptData tok.blob tok.familyKey with
    | Except.error _ => Except.error importFailedMessage
    | Except.ok session =>
        Except.ok
          { store := { st1 with blobs := setItem st1.blobs tok.familyId tok.blob }
            scheduledSave := serverUrlOpt.isSome
            session := session }

/-- The founding member built by `createNewFamily` (`storage.ts` lines
102–112). -/
def foundingMember (now : Nat) (userName : String) : FamilyMember :=
  { id := "user-" ++ toString now
    name := userName
    avatarColor := "bg-orange-100 text-orange-600"
    dietaryRestrictions := []
    cuisinePreferences := []
    flavorPreferences := []
    preferences := []
    favorites := []
    isCurrentUser := true }

/-- Embedding of `createNewFamily` (`storage.ts` lines 98–124): a fresh
id and key (explicit parameters standing for the random draws), one
founding member flagged as the current user, and an initial save. -/
def createNewFamily (st : LocalStore) (now : Nat) (salt iv : List Nat)
    (netOk : Bool) (familyId familyKey : String)
    (familyName userName : String) : SaveResult :=
  saveSession st now salt iv netOk
    { familyId := familyId
      familyName := familyName
      familyKey := familyKey
      members := [foundingMember now userName]
      lastUpdated := now }

/-! ## Concrete scenario used by the witness theorems -/

/-- A member named in lower case, not flagged as the current user. -/
def memberDad : FamilyMember :=
  { id := "user-1"
    name := "dad"
    avatarColor := "bg-orange-100 text-orange-600"
    dietaryRestrictions := []
    cuisinePreferences := []
    flavorPreferences := []
    preferences := []
    favorites := []
    isCurrentUser := true }

/-- A member already flagged as the current user on another device. -/
def memberMom : FamilyMember :=
  { id := "user-2"
    name := "Mom"
    avatarColor := "bg-orange-100 text-orange-600"
    dietaryRestrictions := []
    cuisinePreferences := []
    flavorPreferences := []
    preferences := []
    favorites := []
    isCurrentUser := true }

/-- A concrete stored session whose single member is `memberDad`. -/
def demoSession : FamilySession :=
  { familyId := "FAM1"
    familyName := "The Ames"
    familyKey := "KEY222"
    members := [memberDad]
    lastUpdated := 0 }

/-- A concrete stored session whose single member is `memberMom`. -/
def momSession : FamilySession :=
  { familyId := "FAM2"
    familyName := "The Ames"
    familyKey := "KEY222"
    members := [memberMom]
    lastUpdated := 0 }

/-- `demoSession` encrypted under its own family key. -/
def demoEnvelope : Envelope := encryptData demoSession "KEY222" [3] [4]

/-- `momSession` encrypted under its own family key. -/
def momEnvelope : Envelope := encryptData momSession "KEY222" [3] [4]

/-- A device that holds `demoSession`'s blob locally and has no relay
configured. -/
def demoStore : LocalStore :=
  { blobs := [("FAM1", demoEnvelope)], lastSession := none, serverUrl := none }

/-- A device that holds `momSession`'s blob locally and has no relay
configured. -/
def momStore : LocalStore :=
  { blobs := [("FAM2", momEnvelope)], lastSession := none, serverUrl := none }

/-- A device with nothing stored. -/
def emptyStore : LocalStore :=
  { blobs := [], lastSession := none, serverUrl := none }

/-- A device with nothing stored and a relay configured. -/
def remoteStore : LocalStore :=
  { blobs := [], lastSession := none, serverUrl := some "http://relay.example" }

/-- A relay with empty tables and no joined sockets. -/
def emptyServer : ServerState :=
  { families := [], invites := [], clients := [] }

/-- The saving client's own WebSocket, joined to family `FAM1` and open. -/
def sockSender : Socket := { sid := 1, isOpen := true }

/-- A peer device's WebSocket, joined to family `FAM1` and open. -/
def sockPeer : Socket := { sid := 2, isOpen := true }

/-- A relay where both `sockSender` and `sockPeer` are joined to `FAM1`. -/
def demoServer : ServerState :=
  { families := [], invites := [], clients := [("FAM1", [sockSender, sockPeer])] }

/-! ## Helper lemmas -/

/-- Reading back the key just written by `setItem` yields the value. -/
theorem getItem_setItem_self {α : Type} (m : List (String × α)) (k : String)
    (v : α) : getItem (setItem m k v) k = some v := by
  simp [getItem, setItem]

/-- Decryption with the encrypting password recovers the payload. -/
theorem decryptData_encryptData (S : FamilySession) (P : String)
    (salt iv : List Nat) :
    decryptData (encryptData S P salt iv) P = Except.ok S := by
  simp [decryptData, encryptData, aesGcmEncrypt, aesGcmDecrypt]

/-- Decryption with any other password fails with the decryption error. -/
theorem decryptData_encryptData_ne (S : FamilySession) (P Q : String)
    (salt iv : List Nat) (h : Q ≠ P) :
    decryptData (encryptData S P salt iv) Q = Except.error decryptFailedMessage := by
  simp only [decryptData, encryptData, aesGcmEncrypt, aesGcmDecrypt, getKey]
  rw [if_neg]
  intro hcontra
  exact h (congrArg DerivedKey.password hcontra.1).symm

/-! ## Claims -/

/-- Claim C1: for every session object `S` and every password `P`,
`decryptData (encryptData S P) P` succeeds and returns an object
structurally equal to `S` (for any salt and IV drawn at encryption
time). -/
theorem claim1_decrypt_encrypt_roundTrip (S : FamilySession) (P : String)
    (salt iv : List Nat) :
    decryptData (encryptData S P salt iv) P = Except.ok S :=
  decryptData_encryptData S P salt iv

/-- Claim C2: for every envelope produced by `encryptData` under password
`P` and every different password `Q`, `decryptData` fails with the
decryption error and never returns a value. -/
theorem claim2_wrong_password_fails (S : FamilySession) (P Q : String)
    (salt iv : List Nat) (h : Q ≠ P) :
    decryptData (encryptData S P salt iv) Q = Except.error decryptFailedMessage :=
  decryptData_encryptData_ne S P Q salt iv h

/-- Witness for claim C2 at a concrete session, password pair and
randomness. -/
theorem claim2_wrong_password_fails_witness :
    ("AAAAAA" : String) ≠ "KEY222" ∧
    decryptData (encryptData demoSession "KEY222" [3] [4]) "AAAAAA"
      = Except.error decryptFailedMessage :=
  ⟨by decide, claim2_wrong_password_fails demoSession "KEY222" "AAAAAA" [3] [4] (by decide)⟩

/-- Counterexample to claim C8: the alphabet of `generateFamilyCode` does
contain `L` (the source comment at `crypto.ts` line 65 promises only "No
I, 1, O, 0"), so a code consisting entirely of `L` is generated when all
six random draws hit index 10. -/
theorem claim8_counterexample_code_contains_L :
    generateFamilyCode (fun _ => (10 : Fin 32)) = "LLLLLL" ∧
    'L' ∈ (generateFamilyCode (fun _ => (10 : Fin 32))).toList ∧
    'L' ∈ familyCodeAlphabet.toList := by
  decide

/-- Claim C8 (amended): every string returned by `generateFamilyCode` has
exactly 6 characters, each drawn from the 32-symbol restricted alphabet,
which excludes the visually ambiguous characters `0`, `O`, `1` and `I`
(but not `L`, which the alphabet contains). -/
theorem claim8_generateFamilyCode_spec (rand : Fin 6 → Fin 32) :
    (generateFamilyCode rand).length = 6
    ∧ familyCodeAlphabet.toList.length = 32
    ∧ ∀ c ∈ (generateFamilyCode rand).toList,
        c ∈ familyCodeAlphabet.toList ∧ c ∉ ['0', 'O', '1', 'I'] := by
  refine ⟨?_, by decide, ?_⟩
  · show (List.ofFn _).length = 6
    simp [generateFamilyCode]
  · intro c hc
    have hc' : c ∈ List.ofFn
        (fun i : Fin 6 => familyCodeAlphabet.toList.getD (rand i).val 'A') := hc
    rw [List.mem_ofFn] at hc'
    obtain ⟨i, hi⟩ := hc'
    have hi' : familyCodeAlphabet.toList.getD (rand i).val 'A' = c := hi
    have h32 : familyCodeAlphabet.toList.length = 32 := by decide
    have hlt : (rand i).val < familyCodeAlphabet.toList.length := by
      rw [h32]
      exact (rand i).isLt
    have hmem : c ∈ familyCodeAlphabet.toList := by
      rw [← hi', List.getD_eq_getElem _ _ hlt]
      exact List.getElem_mem hlt
    refine ⟨hmem, ?_⟩
    have hforall : ∀ d ∈ familyCodeAlphabet.toList, d ∉ ['0', 'O', '1', 'I'] := by
      decide
    exact hforall c hmem

/-- Counterexample to claim C3: the invite-issuance request the client
sends to the relay (`POST /api/invite`, emitted by `getInviteCode` from
`FamilyManager.handleInviteCode`) carries the `familyKey` as a plaintext
string field, and the relay stores it verbatim in its `invites` table
(`server.js` line 106) — so a message the client sends to the relay for
storage does contain `familyKey` in plaintext. -/
theorem claim3_counterexample_invite_leaks_key :
    containsPlainKey "KEY222" (WireMsg.postInvite "FAM1" "KEY222") = true ∧
    WireMsg.postInvite "FAM1" "KEY222" ∈ getInviteCodeMsgs "FAM1" "KEY222" ∧
    (postInviteHandler emptyServer "FAM1" "KEY222" "123456" 0).1.invites
      = [{ code := "123456", familyId := "FAM1", familyKey := "KEY222",
           createdAt := 0 }] := by
  decide

/-- Claim C3 (amended): on the session-persistence path the `familyKey`
never leaves the device in plaintext: every wire message emitted by
`saveSession` carries only the `familyId` and the encrypted envelope, so
none of its plaintext string fields equals the `familyKey` (whenever the
id and the key differ, as they always do for generated credentials).  The
invite-issuance request is the exception: it does transmit `familyKey` in
plaintext and the relay stores it. -/
theorem claim3_saveSession_no_plaintext_key (st : LocalStore) (now : Nat)
    (salt iv : List Nat) (netOk : Bool) (session : FamilySession)
    (hne : session.familyId ≠ session.familyKey) :
    ((saveSession st now salt iv netOk session).wireMsgs.all
      (fun m => ! containsPlainKey session.familyKey m)) = true := by
  cases hu : st.serverUrl with
  | none => simp [saveSession, hu]
  | some u =>
      simp only [saveSession, hu, List.all_cons, List.all_nil, Bool.and_true]
      simp [containsPlainKey, WireMsg.plainStrings]
      exact fun h => hne h.symm

/-- Witness for the amended claim C3 at a concrete device state and
session. -/
theorem claim3_saveSession_no_plaintext_key_witness :
    demoSession.familyId ≠ demoSession.familyKey ∧
    ((saveSession remoteStore 7 [5] [6] true demoSession).wireMsgs.all
      (fun m => ! containsPlainKey demoSession.familyKey m)) = true :=
  ⟨by decide,
   claim3_saveSession_no_plaintext_key remoteStore 7 [5] [6] true demoSession
     (by decide)⟩

/-- Claim C4: `joinFamily` fails both when no stored blob exists for the
family id (device A) and when a blob exists but the supplied key does not
decrypt it (device B), and in the two cases it fails with the same error:
the single `familyNotFoundMessage` thrown at `storage.ts` line 131, so the
caller cannot distinguish "no such family" from "wrong key". -/
theorem claim4_joinFamily_indistinguishable
    (stA stB : LocalStore) (rA rB : ServerState) (nA nB : Bool)
    (now : Nat) (salt iv : List Nat) (familyId key userName : String)
    (env : Envelope)
    (hA : fetchEncrypted stA rA nA familyId = none)
    (hB : fetchEncrypted stB rB nB familyId = some env)
    (hdec : decryptData env key = Except.error decryptFailedMessage) :
    joinFamily stA rA nA now salt iv familyId key userName
      = Except.error familyNotFoundMessage
    ∧ joinFamily stB rB nB now salt iv familyId key userName
      = Except.error familyNotFoundMessage := by
  constructor
  · simp [joinFamily, getStoredSession, hA]
  · simp [joinFamily, getStoredSession, hB, hdec]

/-- Witness for claim C4: a device that has nothing stored for `FAM9`,
and a device that holds `FAM1`'s blob but supplies the wrong key, receive
the identical error. -/
theorem claim4_joinFamily_indistinguishable_witness :
    fetchEncrypted emptyStore emptyServer false "FAM1" = none ∧
    fetchEncrypted demoStore emptyServer false "FAM1" = some demoEnvelope ∧
    decryptData demoEnvelope "WRONG1" = Except.error decryptFailedMessage ∧
    (joinFamily emptyStore emptyServer false 7 [5] [6] "FAM1" "WRONG1" "Dad"
       = Except.error familyNotFoundMessage
     ∧ joinFamily demoStore emptyServer false 7 [5] [6] "FAM1" "WRONG1" "Dad"
       = Except.error familyNotFoundMessage) :=
  ⟨by decide, by decide,
   decryptData_encryptData_ne demoSession "KEY222" "WRONG1" [3] [4] (by decide),
   claim4_joinFamily_indistinguishable emptyStore demoStore emptyServer
     emptyServer false false 7 [5] [6] "FAM1" "WRONG1" "Dad" demoEnvelope
     (by decide) (by decide)
     (decryptData_encryptData_ne demoSession "KEY222" "WRONG1" [3] [4] (by decide))⟩

/-- Claim C5: `saveSession` stamps `lastUpdated` with the clock value,
encrypts the full stamped document under the session's family key,
unconditionally writes the encrypted blob to the local cache and the
last-used-credentials pointer, posts the same-device `UPDATE`
notification for the family id, pushes to the remote exactly when a
server URL is configured, and returns the stamped session; the local
store and the returned session are identical whether the remote push
succeeds (`netOk = true`) or fails (`netOk = false`). -/
theorem claim5_saveSession_spec (st : LocalStore) (now : Nat)
    (salt iv : List Nat) (netOk : Bool) (session : FamilySession) :
    (saveSession st now salt iv netOk session).session
      = { session with lastUpdated := now }
    ∧ getItem (saveSession st now salt iv netOk session).store.blobs
        session.familyId
      = some (encryptData { session with lastUpdated := now }
          session.familyKey salt iv)
    ∧ ((saveSession st now salt iv netOk session).store.lastSession.map
        (fun c => (c.id, c.key)))
      = some (session.familyId, session.familyKey)
    ∧ (saveSession st now salt iv netOk session).localMsgs
      = [NotifyMsg.update session.familyId]
    ∧ (saveSession st now salt iv netOk session).wireMsgs
      = (if st.serverUrl.isSome then
          [WireMsg.postFamily session.familyId
            (encryptData { session with lastUpdated := now }
              session.familyKey salt iv)]
         else [])
    ∧ (saveSession st now salt iv true session).store
      = (saveSession st now salt iv false session).store
    ∧ (saveSession st now salt iv true session).session
      = (saveSession st now salt iv false session).session := by
  refine ⟨rfl, ?_, rfl, rfl, ?_, rfl, rfl⟩
  · simp only [saveSession]
    exact getItem_setItem_self _ _ _
  · cases hu : st.serverUrl with
    | none => simp [saveSession, hu]
    | some u => simp [saveSession, hu]

/-- Claim C6: when the stored session has a member whose name matches
`userName` up to case (the first such member, found by the
case-insensitive search at `storage.ts` line 135), `joinFamily` flips
that member's `isCurrentUser` flag on and clears it on every other
member, leaves the member count unchanged, and then performs a save of
the flag-updated session. -/
theorem claim6_joinFamily_existing_member
    (st : LocalStore) (remote : ServerState) (netOk : Bool) (now : Nat)
    (salt iv : List Nat) (familyId familyKey userName : String)
    (session : FamilySession) (ex : FamilyMember)
    (hload : getStoredSession st remote netOk familyId familyKey = some session)
    (hfind : session.members.find?
        (fun m => jsToLower m.name == jsToLower userName) = some ex) :
    joinFamily st remote netOk now salt iv familyId familyKey userName
      = Except.ok (saveSession st now salt iv netOk
          { session with members := flagCurrentUser session.members ex.id })
    ∧ (flagCurrentUser session.members ex.id).length = session.members.length
    ∧ { ex with isCurrentUser := true } ∈ flagCurrentUser session.members ex.id
    ∧ ((flagCurrentUser session.members ex.id).all
        (fun m => m.isCurrentUser == (m.id == ex.id))) = true := by
  refine ⟨?_, ?_, ?_, ?_⟩
  · simp [joinFamily, hload, hfind]
  · simp [flagCurrentUser]
  · have hmem : ex ∈ session.members := List.mem_of_find?_eq_some hfind
    refine List.mem_map.mpr ⟨ex, hmem, ?_⟩
    simp
  · rw [List.all_eq_true]
    intro m hm
    rw [flagCurrentUser, List.mem_map] at hm
    obtain ⟨a, _, rfl⟩ := hm
    cases hid : (a.id == ex.id) <;> simp [hid]

/-- Witness for claim C6: joining the `demoSession` family (stored member
named "dad") as "Dad" re-points the flag instead of duplicating. -/
theorem claim6_joinFamily_existing_member_witness :
    getStoredSession demoStore emptyServer false "FAM1" "KEY222" = some demoSession ∧
    demoSession.members.find? (fun m => jsToLower m.name == jsToLower "Dad")
      = some memberDad ∧
    (joinFamily demoStore emptyServer false 7 [5] [6] "FAM1" "KEY222" "Dad"
      = Except.ok (saveSession demoStore 7 [5] [6] false
          { demoSession with members := flagCurrentUser demoSession.members memberDad.id })
    ∧ (flagCurrentUser demoSession.members memberDad.id).length
        = demoSession.members.length
    ∧ { memberDad with isCurrentUser := true }
        ∈ flagCurrentUser demoSession.members memberDad.id
    ∧ ((flagCurrentUser demoSession.members memberDad.id).all
        (fun m => m.isCurrentUser == (m.id == memberDad.id))) = true) :=
  ⟨by decide, by decide,
   claim6_joinFamily_existing_member demoStore emptyServer false 7 [5] [6]
     "FAM1" "KEY222" "Dad" demoSession memberDad (by decide) (by decide)⟩

/-- Claim C10: when no stored member matches `userName` case-insensitively,
`joinFamily` appends exactly one fresh member flagged `isCurrentUser` and
leaves every pre-existing member entirely unchanged — in particular, a
member whose `isCurrentUser` flag was already set keeps it, so the number
of flagged members grows by one and can exceed one — and then saves. -/
theorem claim10_joinFamily_new_member
    (st : LocalStore) (remote : ServerState) (netOk : Bool) (now : Nat)
    (salt iv : List Nat) (familyId familyKey userName : String)
    (session : FamilySession)
    (hload : getStoredSession st remote netOk familyId familyKey = some session)
    (hfind : session.members.find?
        (fun m => jsToLower m.name == jsToLower userName) = none) :
    joinFamily st remote netOk now salt iv familyId familyKey userName
      = Except.ok (saveSession st now salt iv netOk
          { session with
            members := session.members ++ [newJoinedMember now userName] })
    ∧ (newJoinedMember now userName).isCurrentUser = true
    ∧ (session.members ++ [newJoinedMember now userName]).countP
        (fun m => m.isCurrentUser)
      = session.members.countP (fun m => m.isCurrentUser) + 1 := by
  refine ⟨?_, rfl, ?_⟩
  · simp [joinFamily, hload, hfind]
  · simp [List.countP_append, newJoinedMember]

/-- Witness for claim C10: joining the `momSession` family (single member
"Mom" already flagged) as "Dad" appends a second member, and both flags
are set afterwards. -/
theorem claim10_joinFamily_new_member_witness :
    getStoredSession momStore emptyServer false "FAM2" "KEY222" = some momSession ∧
    momSession.members.find? (fun m => jsToLower m.name == jsToLower "Dad") = none ∧
    (joinFamily momStore emptyServer false 7 [5] [6] "FAM2" "KEY222" "Dad"
      = Except.ok (saveSession momStore 7 [5] [6] false
          { momSession with
            members := momSession.members ++ [newJoinedMember 7 "Dad"] })
    ∧ (newJoinedMember 7 "Dad").isCurrentUser = true
    ∧ (momSession.members ++ [newJoinedMember 7 "Dad"]).countP
        (fun m => m.isCurrentUser)
      = momSession.members.countP (fun m => m.isCurrentUser) + 1) :=
  ⟨by decide, by decide,
   claim10_joinFamily_new_member momStore emptyServer false 7 [5] [6]
     "FAM2" "KEY222" "Dad" momSession (by decide) (by decide)⟩

/-- Claim C7: importing an exported token yields a session structurally
equal to the original (for any session with non-empty credentials, the
only kind the system creates), and when a remote endpoint was configured
on the exporting device the import also sets the importing device's
endpoint to the embedded URL (stated for endpoint values without a
trailing slash, the form `setServerUrl` itself stores). -/
theorem claim7_export_import_roundTrip (stExp stImp : LocalStore)
    (salt iv : List Nat) (S : FamilySession)
    (hid : S.familyId ≠ "") (hkey : S.familyKey ≠ "")
    (hurl : (stExp.serverUrl.getD "").toList.getLast? ≠ some '/') :
    ((importSessionString stImp (exportSessionString stExp salt iv S)).map
        (fun r => r.session)) = Except.ok S
    ∧ (stExp.serverUrl.getD "" ≠ "" →
        ((importSessionString stImp (exportSessionString stExp salt iv S)).map
            (fun r => r.store.serverUrl))
          = Except.ok (some (stExp.serverUrl.getD ""))) := by
  have hdec := decryptData_encryptData S S.familyKey salt iv
  constructor
  · by_cases hu : stExp.serverUrl.getD "" = ""
    · simp [importSessionString, exportSessionString, hid, hkey, hu, hdec,
        Except.map]
    · simp [importSessionString, exportSessionString, hid, hkey, hu, hdec,
        setServerUrl, Except.map]
  · intro hu
    simp [importSessionString, exportSessionString, hid, hkey, hu, hdec,
      setServerUrl, stripTrailingSlash, hurl, Except.map]
    intro hl
    exact absurd hl hurl

/-- Witness for claim C7: a round trip of `demoSession` from a device
with a configured relay endpoint onto a fresh device. -/
theorem claim7_export_import_roundTrip_witness :
    demoSession.familyId ≠ "" ∧
    demoSession.familyKey ≠ "" ∧
    (remoteStore.serverUrl.getD "").toList.getLast? ≠ some '/' ∧
    (((importSessionString emptyStore
          (exportSessionString remoteStore [3] [4] demoSession)).map
        (fun r => r.session)) = Except.ok demoSession
    ∧ (remoteStore.serverUrl.getD "" ≠ "" →
        ((importSessionString emptyStore
            (exportSessionString remoteStore [3] [4] demoSession)).map
          (fun r => r.store.serverUrl))
          = Except.ok (some (remoteStore.serverUrl.getD "")))) :=
  ⟨by decide, by decide, by decide,
   claim7_export_import_roundTrip remoteStore emptyStore [3] [4] demoSession
     (by decide) (by decide) (by decide)⟩

/-- Counterexample to claim C9: the relay's fan-out has no notion of the
sender — the `POST /api/family` HTTP request carries no socket identity —
so when the saving client's own WebSocket (`sockSender`) is joined to the
family and open, it too receives the `UPDATE` message, contradicting "does
not send it to the saving client's own socket". -/
theorem claim9_counterexample_sender_receives_update :
    (sockSender, NotifyMsg.update "FAM1")
      ∈ (postFamilyHandler demoServer "FAM1" (some demoEnvelope) 9).2.1 := by
  decide

/-- Claim C9 (amended): when a client pushes a save for a family, the
relay sends the `UPDATE` message for that family id to every
currently-joined open socket for that family — including the saving
client's own socket if it is joined and open, since no socket is excluded
— upserts the blob, and responds with success. -/
theorem claim9_postFamily_broadcast (sv : ServerState) (familyId : String)
    (env : Envelope) (now : Nat) (h : familyId ≠ "") :
    (postFamilyHandler sv familyId (some env) now).2.1
      = (((getItem sv.clients familyId).getD []).filter
          (fun s => s.isOpen)).map (fun s => (s, NotifyMsg.update familyId))
    ∧ (postFamilyHandler sv familyId (some env) now).2.2 = ApiResp.ok
    ∧ getItem (postFamilyHandler sv familyId (some env) now).1.families familyId
      = some (env, now) := by
  refine ⟨?_, ?_, ?_⟩
  · cases hc : getItem sv.clients familyId with
    | none => simp [postFamilyHandler, h, broadcastUpdate, hc]
    | some socks => simp [postFamilyHandler, h, broadcastUpdate, hc]
  · simp [postFamilyHandler, h]
  · simp only [postFamilyHandler, h, if_neg]
    simp [getItem_setItem_self]

/-- Witness for the amended claim C9 at the concrete relay state with two
open sockets joined to the family. -/
theorem claim9_postFamily_broadcast_witness :
    ("FAM1" : String) ≠ "" ∧
    ((postFamilyHandler demoServer "FAM1" (some demoEnvelope) 9).2.1
      = (((getItem demoServer.clients "FAM1").getD []).filter
          (fun s => s.isOpen)).map (fun s => (s, NotifyMsg.update "FAM1"))
    ∧ (postFamilyHandler demoServer "FAM1" (some demoEnvelope) 9).2.2 = ApiResp.ok
    ∧ getItem (postFamilyHandler demoServer "FAM1" (some demoEnvelope) 9).1.families
        "FAM1" = some (demoEnvelope, 9)) :=
  ⟨by decide,
   claim9_postFamily_broadcast demoServer "FAM1" demoEnvelope 9 (by decide)⟩

end FamEats
